import Mathlib

/-!
Shallow embedding of the `research_assist` repository:
`research_assist/researcher/AgentNodes.py` (workflow controller nodes and the
continuation predicate) and `research_assist/gsuite/drive/GoogleDriveHelper.py`
(storage gateway), together with theorems settling the specification claims.

Python dictionaries with possibly-absent keys are modelled with `Option`-valued
fields; a `state[key]` access on an absent key is a `KeyError`, modelled in the
`Except String` monad; `state.get(key, default)` is `Option.getD`.  The opaque
external collaborators (language model, searcher, storage provider) become
function parameters or explicit provider states.
-/

namespace ResearchAssist

/-- Python single-quote character (written by code point to keep the source
free of quote characters). -/
def pySingleQuote : String := "\u0027"

/-- Rendering of one Python string inside `str(list)` output.  Escaping of
embedded quote characters is not modelled; no claim depends on the rendered
text, which only feeds the opaque editor model. -/
def pyStrOfStr (s : String) : String := pySingleQuote ++ s ++ pySingleQuote

/-- Python `str` of a list of strings, as produced by `"...".format(list)` in
`should_continue`. -/
def pyStrOfList (l : List String) : String :=
  "[" ++ String.intercalate ", " (l.map pyStrOfStr) ++ "]"

/-- A chat message as built by the nodes (`SystemMessage` / `HumanMessage`). -/
inductive Message where
  | system (content : String) : Message
  | human (content : String) : Message
  deriving DecidableEq, Repr

/-- `AgentState` (AgentNodes.py, a `TypedDict`).  Every field is
`Option`-valued because a Python dict may lack a key at runtime; `none`
models an absent key. -/
structure AgentState where
  task : Option String := none
  plan : Option String := none
  draft : Option String := none
  critique : Option String := none
  content : Option (List String) := none
  revision_number : Option Int := none
  max_revisions : Option Int := none
  finalized_state : Option Bool := none
  deriving DecidableEq, Repr

/-- Structured-output shape `Queries` (AgentNodes.py). -/
structure Queries where
  queries : List String
  deriving DecidableEq, Repr

/-- Structured-output shape `FinalizedState` (AgentNodes.py). -/
structure FinalizedState where
  state : Bool
  deriving DecidableEq, Repr

/-- One search result; the code reads only its `content` field. -/
structure SearchResult where
  content : String
  deriving DecidableEq, Repr

/-- Response of `searcher.search(query=..., max_results=...)`. -/
structure SearchResponse where
  results : List SearchResult
  deriving DecidableEq, Repr

/-- The opaque collaborators held by an `AgentNodes` instance: the model
(`invoke`), its two structured-output views, and the searcher.  Each is a pure
function of the messages / query it receives. -/
structure AgentNodesModel where
  invoke : List Message → String
  invokeQueries : List Message → Queries
  invokeFinalized : List Message → FinalizedState
  search : String → Nat → SearchResponse

/-- Modelled from the spec: stand-in for `ResearchPlanPrompt.system_template`;
the prompt text lives in `research_assist/researcher/prompts.py`, which is not
under `src/`.  The claims treat it as an opaque constant. -/
def ResearchPlanPrompt_system_template : String := "ResearchPlanPrompt.system_template"

/-- Modelled from the spec: stand-in for `ResearchEditorPrompt.system_template`
(prompt text outside `src/`, opaque). -/
def ResearchEditorPrompt_system_template : String := "ResearchEditorPrompt.system_template"

/-- Modelled from the spec: stand-in for `ResearchCritiquePrompt.system_template`
(prompt text outside `src/`, opaque). -/
def ResearchCritiquePrompt_system_template : String := "ResearchCritiquePrompt.system_template"

/-- Modelled from the spec: stand-in for
`ResearchWritePrompt.system_template.format(content=content)` (prompt text
outside `src/`); an opaque template applied to the joined content. -/
def ResearchWritePrompt_system_template_format (content : String) : String :=
  "ResearchWritePrompt.system_template " ++ content

/-- Partial state update returned by a node: a Python dict holding a subset of
the `AgentState` keys (`none` = key not in the returned dict). -/
structure StateUpdate where
  plan : Option String := none
  draft : Option String := none
  critique : Option String := none
  content : Option (List String) := none
  revision_number : Option Int := none
  finalized_state : Option Bool := none
  deriving DecidableEq, Repr

/-- Messages `research_plan_node` sends to
`model.with_structured_output(Queries).invoke` (AgentNodes.py lines 115-120);
a `KeyError` when the `task` key is absent. -/
def researchPlanMessages (state : AgentState) : Except String (List Message) :=
  match state.task with
  | none => Except.error "KeyError: task"
  | some task =>
    Except.ok [Message.system ResearchPlanPrompt_system_template, Message.human task]

/-- The two nested for-loops of `research_plan_node` / `research_critique_node`:
for each generated query, append the text bodies of up to 5 search results onto
the accumulated content, in query order then result order. -/
def appendSearchResults (m : AgentNodesModel) (qs : Queries) (content : List String) :
    List String :=
  qs.queries.foldl (fun acc q => acc ++ ((m.search q 5).results.map SearchResult.content))
    content

/-- `AgentNodes.research_plan_node` (AgentNodes.py lines 105-128).  Reads
`state["task"]` (required) and `state.get("content", [])` (defaulted). -/
def research_plan_node (m : AgentNodesModel) (state : AgentState) :
    Except String StateUpdate :=
  match researchPlanMessages state with
  | Except.error e => Except.error e
  | Except.ok msgs =>
    let queries := m.invokeQueries msgs
    let content := state.content.getD []
    Except.ok { content := some (appendSearchResults m queries content) }

/-- `AgentNodes.generation_node` (AgentNodes.py lines 130-154).  Reads
`state.get("content", [])`, `state["task"]`, `state["plan"]` and
`state.get("revision_number", 1)`. -/
def generation_node (m : AgentNodesModel) (state : AgentState) :
    Except String StateUpdate :=
  let content := String.intercalate "\n\n" (state.content.getD [])
  match state.task with
  | none => Except.error "KeyError: task"
  | some task =>
    match state.plan with
    | none => Except.error "KeyError: plan"
    | some plan =>
      let user_message := Message.human (task ++ "\n\nHere is my plan:\n\n" ++ plan)
      let messages :=
        [Message.system (ResearchWritePrompt_system_template_format content), user_message]
      let response := m.invoke messages
      Except.ok { draft := some response
                  revision_number := some (state.revision_number.getD 1 + 1) }

/-- `AgentNodes.research_critique_node` (AgentNodes.py lines 173-195).  Reads
`state["critique"]` (required, accessed first for the model call) and
`state["content"] or []` (required key, falsy value replaced by `[]`). -/
def research_critique_node (m : AgentNodesModel) (state : AgentState) :
    Except String StateUpdate :=
  match state.critique with
  | none => Except.error "KeyError: critique"
  | some critique =>
    let queries := m.invokeQueries
      [Message.system ResearchCritiquePrompt_system_template, Message.human critique]
    match state.content with
    | none => Except.error "KeyError: content"
    | some content0 =>
      let content := if content0.isEmpty then ([] : List String) else content0
      Except.ok { content := some (appendSearchResults m queries content) }

/-- Truthiness of `state.get("critique", [])` at the top of `should_continue`:
`false` exactly when the critique key is absent or holds the empty string. -/
def critiqueTruthy (state : AgentState) : Bool := !(state.critique.getD "").isEmpty

/-- Messages `should_continue` sends to
`model.with_structured_output(FinalizedState).invoke` (AgentNodes.py
lines 212-222). -/
def shouldContinueMessages (critique : String) (content : List String) : List Message :=
  [Message.system ResearchEditorPrompt_system_template,
   Message.human ("The previous critique: " ++ critique),
   Message.human ("The current essay: " ++ pyStrOfList content)]

/-- `AgentNodes.should_continue` (AgentNodes.py lines 197-229).  Returns one of
"to_review", "accepted", "rejected"; key accesses `state["content"]`,
`state["revision_number"]`, `state["max_revisions"]` may raise `KeyError`,
in that order. -/
def should_continue (m : AgentNodesModel) (state : AgentState) : Except String String :=
  let current_reviewer_comments := state.critique.getD ""
  if current_reviewer_comments.isEmpty then
    Except.ok "to_review"
  else
    match state.content with
    | none => Except.error "KeyError: content"
    | some content =>
      let continue_state :=
        m.invokeFinalized (shouldContinueMessages current_reviewer_comments content)
      if continue_state.state then
        Except.ok "accepted"
      else
        match state.revision_number with
        | none => Except.error "KeyError: revision_number"
        | some rn =>
          match state.max_revisions with
          | none => Except.error "KeyError: max_revisions"
          | some mr => if rn > mr then Except.ok "rejected" else Except.ok "to_review"

/-- File metadata in the modelled Drive provider state: exactly the fields the
query strings and the code read. -/
structure DriveFile where
  id : String
  name : String
  mimeType : String
  trashed : Bool
  deriving DecidableEq, Repr

/-- The Google Drive folder MIME type used by every folder query. -/
def folderMimeType : String := "application/vnd.google-apps.folder"

/-- Predicate of the query string built by `GoogleDriveHelper.get_folder_id`
(GoogleDriveHelper.py line 251): mimeType = folder and name = folder_name.
Note: this query carries NO trashed filter. -/
def matchesGetFolderIdQuery (folder_name : String) (f : DriveFile) : Bool :=
  f.mimeType == folderMimeType && f.name == folder_name

/-- Predicate of the query string built by
`GoogleDriveHelper.get_folder_id_from_name` (GoogleDriveHelper.py line 41):
mimeType = folder and trashed = false and name = folder_name. -/
def matchesGetFolderIdFromNameQuery (folder_name : String) (f : DriveFile) : Bool :=
  f.mimeType == folderMimeType && !f.trashed && f.name == folder_name

/-- `GoogleDriveHelper.get_folder_id` (GoogleDriveHelper.py lines 238-259), with
the provider modelled as an ordered list of files that the listing call filters
by the query predicate.  Raises `ValueError` (modelled as `Except.error`) when
no file matches; otherwise returns the first match's id. -/
def get_folder_id (drive : List DriveFile) (folder_name : String) : Except String String :=
  match drive.filter (matchesGetFolderIdQuery folder_name) with
  | [] => Except.error ("No folder called " ++ folder_name ++ " is found")
  | f :: _ => Except.ok f.id

/-- The state a constructed `GoogleDriveHelper` holds (service object elided:
it is the opaque provider). -/
structure GoogleDriveHelper where
  folder_name : String
  top_level_folder_id : String
  deriving DecidableEq, Repr

/-- `GoogleDriveHelper.__init__` (GoogleDriveHelper.py lines 18-27): stores the
folder name and resolves `top_level_folder_id` via `get_folder_id`; the
`ValueError` raised there propagates, failing construction. -/
def googleDriveHelperInit (drive : List DriveFile) (folder_name : String) :
    Except String GoogleDriveHelper :=
  match get_folder_id drive folder_name with
  | Except.error e => Except.error e
  | Except.ok fid => Except.ok { folder_name := folder_name, top_level_folder_id := fid }

/-- An (id, name) pair collected by `list_all_files`. -/
structure DriveListEntry where
  id : String
  name : String
  deriving DecidableEq, Repr

/-- One response of the paginated `files().list(...).execute()` call. -/
structure ListFilesPage where
  files : List DriveListEntry
  nextPageToken : Option String
  deriving DecidableEq, Repr

/-- Loop of `GoogleDriveHelper.list_all_files` (GoogleDriveHelper.py lines
93-127).  `responses` is the sequence of outcomes of the successive
`.execute()` calls: `Except.error` is an `HttpError` raised by that fetch,
caught by the surrounding handler which discards everything collected so far
and yields `none`.  A successful page's entries are appended in order; the
loop stops when a page carries no next-page token.  The sequence is assumed to
cover every fetch the loop performs; exhausting it with a token still pending
is outside the modelled provider contract (mapped to `none`, and unreachable
under the hypotheses of the theorems below). -/
def listAllFilesGo :
    List (Except Unit ListFilesPage) → List DriveListEntry → Option (List DriveListEntry)
  | [], _ => none
  | Except.error _ :: _, _ => none
  | Except.ok page :: rest, files =>
    let files2 := files ++ page.files
    match page.nextPageToken with
    | none => some files2
    | some _ => listAllFilesGo rest files2

/-- `GoogleDriveHelper.list_all_files`: run the pagination loop with an empty
accumulator; `none` is Python `None`, the absent-result sentinel. -/
def list_all_files (responses : List (Except Unit ListFilesPage)) :
    Option (List DriveListEntry) :=
  listAllFilesGo responses []

/-- A response sequence forming one complete pagination: nonempty, every page
but the last carries a next-page token, and the last does not. -/
def completeResponses : List ListFilesPage → Bool
  | [] => false
  | [p] => p.nextPageToken.isNone
  | p :: q :: rest => p.nextPageToken.isSome && completeResponses (q :: rest)

/-- A searcher returning two fixed snippets for any query (used by witnesses). -/
def demoSearcher : String → Nat → SearchResponse :=
  fun _ _ => { results := [{ content := "snippet-1" }, { content := "snippet-2" }] }

/-- A model bundle whose editor always answers finalized (used by witnesses). -/
def demoModelAccept : AgentNodesModel :=
  { invoke := fun _ => "draft-text"
    invokeQueries := fun _ => { queries := ["query-1"] }
    invokeFinalized := fun _ => { state := true }
    search := demoSearcher }

/-- A model bundle whose editor always answers not finalized. -/
def demoModelReject : AgentNodesModel :=
  { demoModelAccept with invokeFinalized := fun _ => { state := false } }

/-- A fully populated state whose revision count already exceeds the cap. -/
def demoStateAccepted : AgentState :=
  { task := some "Summarize X", plan := some "the plan", draft := some "draft v2"
    critique := some "needs work", content := some ["essay"]
    revision_number := some 5, max_revisions := some 2, finalized_state := none }

/-- The reject scenario of the spec: revision_number 3, max_revisions 2. -/
def demoStateRejected : AgentState :=
  { demoStateAccepted with revision_number := some 3, max_revisions := some 2 }

/-- A state with no critique yet. -/
def demoStateNoCritique : AgentState := { demoStateAccepted with critique := none }

/-- A state lacking the content key. -/
def demoStateNoContent : AgentState := { demoStateAccepted with content := none }

/-- A state lacking the revision_number key. -/
def demoStateNoRevision : AgentState := { demoStateAccepted with revision_number := none }

/-- A state differing from `demoStateAccepted` only in its plan. -/
def demoStateOtherPlan : AgentState := { demoStateAccepted with plan := some "another plan" }

/-- A drive with two distinct folders sharing the configured name. -/
def demoDrive : List DriveFile :=
  [{ id := "file-1", name := "notes.txt", mimeType := "text/plain", trashed := false },
   { id := "folder-1", name := "Research", mimeType := folderMimeType, trashed := false },
   { id := "folder-2", name := "Research", mimeType := folderMimeType, trashed := false }]

/-- A drive whose only folder with the configured name is trashed. -/
def demoTrashedDrive : List DriveFile :=
  [{ id := "folder-trashed", name := "Research", mimeType := folderMimeType, trashed := true }]

/-- First page of a two-page listing (used by witnesses). -/
def demoPage1 : ListFilesPage :=
  { files := [{ id := "f1", name := "a" }], nextPageToken := some "t1" }

/-- Final page of a two-page listing (used by witnesses). -/
def demoPage2 : ListFilesPage :=
  { files := [{ id := "f2", name := "b" }], nextPageToken := none }

/-- Helper: a left fold that appends a block per element extends its initial
list on the right; the initial list is a prefix of the result. -/
theorem foldl_append_extends {α β : Type} (f : α → List β) :
    ∀ (l : List α) (init : List β),
      ∃ tail, l.foldl (fun acc q => acc ++ f q) init = init ++ tail
  | [], init => ⟨[], by simp⟩
  | a :: l, init => by
    obtain ⟨tail, ht⟩ := foldl_append_extends f l (init ++ f a)
    exact ⟨f a ++ tail, by simp [List.foldl_cons, ht]⟩

/-- Helper: `appendSearchResults` only ever appends, whatever the model and
searcher return. -/
theorem appendSearchResults_extends (m : AgentNodesModel) (qs : Queries)
    (content : List String) :
    ∃ tail, appendSearchResults m qs content = content ++ tail :=
  foldl_append_extends _ qs.queries content

/-- C1: for every state with a truthy critique and a present content key, if
the editor model answers `state = true` then `should_continue` returns
"accepted", with no condition whatsoever on `revision_number` or
`max_revisions` (they may even be absent): the revision cap is bypassed
whenever the model accepts. -/
theorem C1_should_continue_accept_bypasses_cap
    (m : AgentNodesModel) (state : AgentState) (cs : List String)
    (hcrit : critiqueTruthy state = true)
    (hcon : state.content = some cs)
    (hed : (m.invokeFinalized
        (shouldContinueMessages (state.critique.getD "") cs)).state = true) :
    should_continue m state = Except.ok "accepted" := by
  unfold critiqueTruthy at hcrit
  rw [Bool.not_eq_eq_eq_not] at hcrit
  simp only [Bool.not_true] at hcrit
  simp [should_continue, hcrit, hcon, hed]

/-- C1 witness: a concrete state whose revision count (5) already exceeds the
cap (2) is still accepted when the editor model says finalized. -/
theorem C1_witness :
    should_continue demoModelAccept demoStateAccepted = Except.ok "accepted" :=
  C1_should_continue_accept_bypasses_cap demoModelAccept demoStateAccepted ["essay"]
    rfl rfl rfl

/-- C2: `should_continue` answers "rejected" exactly when the critique is
truthy, the content key is present, the editor model answers
`state = false` on the messages built from them, and the present
`revision_number` strictly exceeds the present `max_revisions`; in
particular a reject decision is never produced while
`revision_number <= max_revisions`. -/
theorem C2_should_continue_rejected_iff (m : AgentNodesModel) (state : AgentState) :
    should_continue m state = Except.ok "rejected" ↔
      critiqueTruthy state = true ∧
      ∃ cs rn mr, state.content = some cs ∧ state.revision_number = some rn ∧
        state.max_revisions = some mr ∧
        (m.invokeFinalized
          (shouldContinueMessages (state.critique.getD "") cs)).state = false ∧
        mr < rn := by
  unfold should_continue critiqueTruthy
  cases hcrit : (state.critique.getD "").isEmpty with
  | true => simp [hcrit]
  | false =>
    cases hcon : state.content with
    | none => simp [hcrit, hcon]
    | some cs =>
      cases hed : (m.invokeFinalized
          (shouldContinueMessages (state.critique.getD "") cs)).state with
      | true => simp [hcrit, hcon, hed]
      | false =>
        cases hrn : state.revision_number with
        | none => simp [hcrit, hcon, hed, hrn]
        | some rn =>
          cases hmr : state.max_revisions with
          | none => simp [hcrit, hcon, hed, hrn, hmr]
          | some mr =>
            by_cases hlt : mr < rn
            · simp [hcrit, hcon, hed, hrn, hmr, hlt]
            · simp [hcrit, hcon, hed, hrn, hmr, hlt]

/-- C2 witness: the spec scenario `revision_number = 3`, `max_revisions = 2`,
editor model answering `state = false`, yields "rejected". -/
theorem C2_witness :
    should_continue demoModelReject demoStateRejected = Except.ok "rejected" :=
  (C2_should_continue_rejected_iff demoModelReject demoStateRejected).mpr
    ⟨rfl, ["essay"], 3, 2, rfl, rfl, rfl, rfl, by norm_num⟩

/-- C3: whenever the critique is falsy (key absent or empty string),
`should_continue` returns "to_review"; the conclusion holds for every model
bundle `m`, so the editor model is never consulted on this branch. -/
theorem C3_should_continue_no_critique (m : AgentNodesModel) (state : AgentState)
    (hcrit : critiqueTruthy state = false) :
    should_continue m state = Except.ok "to_review" := by
  unfold critiqueTruthy at hcrit
  rw [Bool.not_eq_eq_eq_not] at hcrit
  simp only [Bool.not_false] at hcrit
  simp [should_continue, hcrit]

/-- C3 witness: a state with no critique key goes to review. -/
theorem C3_witness :
    should_continue demoModelAccept demoStateNoCritique = Except.ok "to_review" :=
  C3_should_continue_no_critique demoModelAccept demoStateNoCritique rfl

/-- C4: the content sequence is append-only: for every input state with the
keys each node requires, both `research_plan_node` and
`research_critique_node` return a partial update whose content list extends
the input content list on the right (the input is a prefix; nothing is
removed or reordered). -/
theorem C4_content_append_only (m : AgentNodesModel) (state : AgentState)
    (t c : String) (cs : List String)
    (ht : state.task = some t) (hc : state.critique = some c)
    (hcon : state.content = some cs) :
    (∃ u tail, research_plan_node m state = Except.ok u ∧
      u.content = some (cs ++ tail)) ∧
    (∃ u tail, research_critique_node m state = Except.ok u ∧
      u.content = some (cs ++ tail)) := by
  constructor
  · obtain ⟨tail, htail⟩ := appendSearchResults_extends m
      (m.invokeQueries [Message.system ResearchPlanPrompt_system_template,
        Message.human t]) cs
    refine ⟨{ content := some (cs ++ tail) }, tail, ?_, rfl⟩
    simp [research_plan_node, researchPlanMessages, ht, hcon, htail]
  · have hif : (if cs = ([] : List String) then ([] : List String) else cs) = cs := by
      split <;> simp_all
    obtain ⟨tail, htail⟩ := appendSearchResults_extends m
      (m.invokeQueries [Message.system ResearchCritiquePrompt_system_template,
        Message.human c]) cs
    refine ⟨{ content := some (cs ++ tail) }, tail, ?_, rfl⟩
    simp [research_critique_node, hc, hcon, hif, htail]

/-- C4 witness: on a concrete populated state, both nodes extend the existing
content list. -/
theorem C4_witness :
    (∃ u tail, research_plan_node demoModelAccept demoStateAccepted = Except.ok u ∧
      u.content = some (["essay"] ++ tail)) ∧
    (∃ u tail, research_critique_node demoModelAccept demoStateAccepted = Except.ok u ∧
      u.content = some (["essay"] ++ tail)) :=
  C4_content_append_only demoModelAccept demoStateAccepted
    "Summarize X" "needs work" ["essay"] rfl rfl rfl

/-- C5: for every state with task and plan present, `generation_node` succeeds
and returns `revision_number` equal to `state.get("revision_number", 1) + 1`;
a missing key is treated as 1, so the first generation pass yields 2. -/
theorem C5_generation_increments_revision (m : AgentNodesModel) (state : AgentState)
    (t p : String) (ht : state.task = some t) (hp : state.plan = some p) :
    ∃ u, generation_node m state = Except.ok u ∧
      u.revision_number = some (state.revision_number.getD 1 + 1) ∧
      (state.revision_number = none → u.revision_number = some 2) := by
  have h : generation_node m state = Except.ok
      { draft := some (m.invoke
          [Message.system (ResearchWritePrompt_system_template_format
            (String.intercalate "\n\n" (state.content.getD []))),
           Message.human (t ++ "\n\nHere is my plan:\n\n" ++ p)])
        revision_number := some (state.revision_number.getD 1 + 1) } := by
    simp [generation_node, ht, hp]
  exact ⟨_, h, rfl, fun hrn => by simp [hrn]⟩

/-- C5 witness: on a concrete state lacking the revision_number key, the node
succeeds and yields revision number 2. -/
theorem C5_witness :
    ∃ u, generation_node demoModelAccept demoStateNoRevision = Except.ok u ∧
      u.revision_number = some (demoStateNoRevision.revision_number.getD 1 + 1) ∧
      (demoStateNoRevision.revision_number = none → u.revision_number = some 2) :=
  C5_generation_increments_revision demoModelAccept demoStateNoRevision
    "Summarize X" "the plan" rfl rfl

/-- C6: construction fails with an error exactly when the constructor folder
query matches nothing; when at least one file matches, construction succeeds
and `top_level_folder_id` is the id of the first match (first result wins
when several folders share the name). -/
theorem C6_helper_init_first_match (drive : List DriveFile) (folder_name : String) :
    ((∃ e, googleDriveHelperInit drive folder_name = Except.error e) ↔
      drive.filter (matchesGetFolderIdQuery folder_name) = []) ∧
    (∀ f rest, drive.filter (matchesGetFolderIdQuery folder_name) = f :: rest →
      googleDriveHelperInit drive folder_name =
        Except.ok { folder_name := folder_name, top_level_folder_id := f.id }) := by
  unfold googleDriveHelperInit get_folder_id
  cases h : drive.filter (matchesGetFolderIdQuery folder_name) with
  | nil => simp
  | cons f rest =>
    constructor
    · simp
    · intro g grest hg
      rw [List.cons.injEq] at hg
      rw [hg.1]

/-- C6 witness: on a drive holding two distinct folders both named "Research",
construction succeeds and picks the id of the first. -/
theorem C6_witness :
    googleDriveHelperInit demoDrive "Research" =
      Except.ok { folder_name := "Research", top_level_folder_id := "folder-1" } :=
  (C6_helper_init_first_match demoDrive "Research").2
    { id := "folder-1", name := "Research", mimeType := folderMimeType, trashed := false }
    [{ id := "folder-2", name := "Research", mimeType := folderMimeType, trashed := false }]
    (by decide)

/-- Helper: the constructor query predicate never inspects the trashed flag. -/
theorem filter_matches_map_trashed (folder_name : String) (tf : DriveFile → Bool) :
    ∀ drive : List DriveFile,
      (drive.map fun f => { f with trashed := tf f }).filter
          (matchesGetFolderIdQuery folder_name)
        = (drive.filter (matchesGetFolderIdQuery folder_name)).map
            fun f => { f with trashed := tf f }
  | [] => rfl
  | f :: rest => by
    have hm : matchesGetFolderIdQuery folder_name { f with trashed := tf f }
        = matchesGetFolderIdQuery folder_name f := rfl
    cases h : matchesGetFolderIdQuery folder_name f <;>
      simp [List.filter_cons, hm, h, filter_matches_map_trashed folder_name tf rest]

/-- C8 counterexample: on a provider state whose only folder named "Research"
is trashed, construction still selects it as the top-level folder, so the
claim that a trashed folder is never selected is false on the code: the
query built by `get_folder_id` carries no trashed filter. -/
theorem C8_counterexample :
    (∀ f ∈ demoTrashedDrive, f.trashed = true) ∧
    googleDriveHelperInit demoTrashedDrive "Research" =
      Except.ok { folder_name := "Research", top_level_folder_id := "folder-trashed" } := by
  constructor
  · decide
  · rfl

/-- C8 amended: the top-level folder resolution performed at construction is
independent of the trashed flag of every file: rewriting the flags of the
provider state arbitrarily never changes the outcome of `get_folder_id`
(unlike `get_folder_id_from_name`, whose query filters trashed files,
construction uses the unfiltered query). -/
theorem C8_amended_resolution_ignores_trashed (drive : List DriveFile)
    (folder_name : String) (tf : DriveFile → Bool) :
    get_folder_id (drive.map fun f => { f with trashed := tf f }) folder_name
      = get_folder_id drive folder_name := by
  unfold get_folder_id
  rw [filter_matches_map_trashed]
  cases drive.filter (matchesGetFolderIdQuery folder_name) <;> rfl

/-- Helper: on a complete pagination with every fetch succeeding, the loop
appends the concatenation of all pages, in order, to its accumulator. -/
theorem listAllFilesGo_complete :
    ∀ (ps : List ListFilesPage) (acc : List DriveListEntry),
      completeResponses ps = true →
      listAllFilesGo (ps.map Except.ok) acc
        = some (acc ++ (ps.map ListFilesPage.files).flatten)
  | [], _, h => by simp [completeResponses] at h
  | [p], acc, h => by
    have hn : p.nextPageToken = none := by
      revert h
      simp [completeResponses, Option.isNone_iff_eq_none]
    have step : listAllFilesGo ([p].map Except.ok) acc
        = match p.nextPageToken with
          | none => some (acc ++ p.files)
          | some _ => listAllFilesGo ([].map Except.ok) (acc ++ p.files) := rfl
    rw [step, hn]
    simp
  | p :: q :: rest, acc, h => by
    have h1 : p.nextPageToken.isSome = true := by
      revert h
      simp only [completeResponses, Bool.and_eq_true]
      exact fun hh => hh.1
    have h2 : completeResponses (q :: rest) = true := by
      revert h
      simp only [completeResponses, Bool.and_eq_true]
      exact fun hh => hh.2
    obtain ⟨t, ht⟩ := Option.isSome_iff_exists.mp h1
    have step : listAllFilesGo ((p :: q :: rest).map Except.ok) acc
        = match p.nextPageToken with
          | none => some (acc ++ p.files)
          | some _ => listAllFilesGo ((q :: rest).map Except.ok) (acc ++ p.files) := rfl
    rw [step, ht, listAllFilesGo_complete (q :: rest) (acc ++ p.files) h2]
    simp

/-- Helper: when some fetch raises a transport error after any run of
successful pages still carrying next-page tokens, the loop discards
everything collected so far and returns the `none` sentinel. -/
theorem listAllFilesGo_error :
    ∀ (ps : List ListFilesPage) (rest : List (Except Unit ListFilesPage))
      (acc : List DriveListEntry),
      (∀ p ∈ ps, p.nextPageToken.isSome = true) →
      listAllFilesGo (ps.map Except.ok ++ Except.error () :: rest) acc = none
  | [], _, _, _ => rfl
  | p :: ps, rest, acc, h => by
    have h1 : p.nextPageToken.isSome = true := h p (by simp)
    obtain ⟨t, ht⟩ := Option.isSome_iff_exists.mp h1
    have step : listAllFilesGo ((p :: ps).map Except.ok ++ Except.error () :: rest) acc
        = match p.nextPageToken with
          | none => some (acc ++ p.files)
          | some _ =>
            listAllFilesGo (ps.map Except.ok ++ Except.error () :: rest) (acc ++ p.files) := rfl
    rw [step, ht,
      listAllFilesGo_error ps rest (acc ++ p.files) (fun q hq => h q (by simp [hq]))]

/-- C7: `list_all_files` returns the concatenation of all pages, in page order
and within-page order, whenever every fetch of a complete pagination
succeeds; and it returns the absent-result sentinel `none` — never a partial
list — whenever some fetch raises a transport error. -/
theorem C7_list_all_files_all_or_nothing :
    (∀ ps : List ListFilesPage, completeResponses ps = true →
      list_all_files (ps.map Except.ok) = some (ps.map ListFilesPage.files).flatten) ∧
    (∀ (ps : List ListFilesPage) (rest : List (Except Unit ListFilesPage)),
      (∀ p ∈ ps, p.nextPageToken.isSome = true) →
      list_all_files (ps.map Except.ok ++ Except.error () :: rest) = none) := by
  constructor
  · intro ps h
    rw [list_all_files, listAllFilesGo_complete ps [] h]
    simp
  · intro ps rest h
    exact listAllFilesGo_error ps rest [] h

/-- C7 witness: a concrete two-page listing concatenates both pages, and the
same first page followed by a transport error yields the sentinel. -/
theorem C7_witness :
    list_all_files ([demoPage1, demoPage2].map Except.ok) =
      some ([demoPage1, demoPage2].map ListFilesPage.files).flatten ∧
    list_all_files ([demoPage1].map Except.ok ++ Except.error () :: []) = none :=
  ⟨C7_list_all_files_all_or_nothing.1 [demoPage1, demoPage2] (by decide),
   C7_list_all_files_all_or_nothing.2 [demoPage1] [] (by decide)⟩

/-- C9 counterexample: negation of the claimed existence — for every two
states that agree on every field except `plan`, the messages supplied to the
query-generation model call of `research_plan_node` are identical, because
the code puts only the fixed system prompt and the task into them (the plan
is never read). -/
theorem C9_counterexample :
    ¬ ∃ s1 s2 : AgentState, s1.task = s2.task ∧ s1.draft = s2.draft ∧
      s1.critique = s2.critique ∧ s1.content = s2.content ∧
      s1.revision_number = s2.revision_number ∧ s1.max_revisions = s2.max_revisions ∧
      s1.finalized_state = s2.finalized_state ∧ s1.plan ≠ s2.plan ∧
      researchPlanMessages s1 ≠ researchPlanMessages s2 := by
  rintro ⟨s1, s2, htask, -, -, -, -, -, -, -, hmsg⟩
  apply hmsg
  unfold researchPlanMessages
  rw [htask]

/-- C9 amended: `research_plan_node` reads the task and content fields, not
the plan: any two states agreeing on task and content produce the same
query-generation messages and the same node result for every model bundle,
so states differing only in plan yield identical query-generation input. -/
theorem C9_amended_plan_not_read (m : AgentNodesModel) (s1 s2 : AgentState)
    (htask : s1.task = s2.task) (hcontent : s1.content = s2.content) :
    researchPlanMessages s1 = researchPlanMessages s2 ∧
    research_plan_node m s1 = research_plan_node m s2 := by
  have hm : researchPlanMessages s1 = researchPlanMessages s2 := by
    unfold researchPlanMessages
    rw [htask]
  refine ⟨hm, ?_⟩
  unfold research_plan_node
  rw [hm, hcontent]

/-- C9 witness: two concrete states differing only in their plan give the same
messages and the same node result. -/
theorem C9_witness :
    researchPlanMessages demoStateAccepted = researchPlanMessages demoStateOtherPlan ∧
    research_plan_node demoModelAccept demoStateAccepted
      = research_plan_node demoModelAccept demoStateOtherPlan :=
  C9_amended_plan_not_read demoModelAccept demoStateAccepted demoStateOtherPlan rfl rfl

/-- C10: on every state whose content key is absent (task and critique
present), `research_plan_node` succeeds, behaving exactly as if the content
were the empty list, while `research_critique_node` raises the missing-key
error for "content": presence of the key is a precondition of the critique
node only. -/
theorem C10_missing_content_asymmetry (m : AgentNodesModel) (state : AgentState)
    (t c : String) (ht : state.task = some t) (hc : state.critique = some c)
    (hcon : state.content = none) :
    (∃ u, research_plan_node m state = Except.ok u) ∧
    research_plan_node m state = research_plan_node m { state with content := some [] } ∧
    research_critique_node m state = Except.error "KeyError: content" := by
  have hplan : research_plan_node m state = Except.ok
      { content := some (appendSearchResults m
          (m.invokeQueries [Message.system ResearchPlanPrompt_system_template,
            Message.human t]) (state.content.getD [])) } := by
    simp [research_plan_node, researchPlanMessages, ht]
  refine ⟨⟨_, hplan⟩, ?_, ?_⟩
  · simp [research_plan_node, researchPlanMessages, ht, hcon]
  · simp [research_critique_node, hc, hcon]

/-- C10 witness: a concrete state lacking content is accepted by the plan node
and rejected with a KeyError by the critique node. -/
theorem C10_witness :
    (∃ u, research_plan_node demoModelAccept demoStateNoContent = Except.ok u) ∧
    research_plan_node demoModelAccept demoStateNoContent
      = research_plan_node demoModelAccept { demoStateNoContent with content := some [] } ∧
    research_critique_node demoModelAccept demoStateNoContent
      = Except.error "KeyError: content" :=
  C10_missing_content_asymmetry demoModelAccept demoStateNoContent
    "Summarize X" "needs work" rfl rfl rfl

end ResearchAssist
